import Mathlib

/-!
Shallow embedding of `src/app/api/search/route.ts` (the search API route of
KatelyaTV) and proofs of the specification's claims about it.

The route's external collaborators (`getAvailableApiSites`, `getCacheTime`,
`getStorage().getUserSettings`, `searchFromApi`) are modelled as fields of an
environment record; a call that may reject is modelled with `Except Unit`.
`addCorsHeaders` only adds CORS headers (a collaborator the spec places out of
scope) and is not modelled; the headers below are the ones the handler itself
sets.
-/

namespace KatelyaTV

/-- The parts of the incoming `Request` that the handler reads.
`none` models a missing query parameter / header (JS `null`). -/
structure SearchRequest where
  q : Option String
  user : Option String
  authHeader : Option String
  include_adult : Option String
deriving DecidableEq

/-- The JS value found at `userSettings.filter_adult_content`: a boolean,
absent/`undefined`, or some other (non-boolean) value. -/
inductive SettingsField where
  | fbool : Bool → SettingsField
  | fabsent : SettingsField
  | fother : SettingsField
deriving DecidableEq

/-- `userSettings?.filter_adult_content !== false`: true unless the settings
object is non-null and the field is exactly `false`. -/
def fieldNotFalse : Option SettingsField → Bool
  | some (SettingsField.fbool false) => false
  | _ => true

/-- The external collaborators of the route, over abstract provider (`Site`)
and result (`R`) types.  `getUserSettings` and `searchFromApi` may reject
(`Except.error`); `getAvailableApiSites` may reject or return
null/undefined (`Except.ok none`). -/
structure Env (Site R : Type) where
  cacheTime : Nat
  getUserSettings : String → Except Unit (Option SettingsField)
  getAvailableApiSites : Bool → Except Unit (Option (List Site))
  searchFromApi : Site → String → Except Unit (List R)

/-- The JSON response the handler builds: status, the two result arrays, the
optional `error` field, and the headers it sets itself. -/
structure ApiResponse (R : Type) where
  status : Nat
  regular_results : List R
  adult_results : List R
  error : Option String
  headers : List (String × String)
deriving DecidableEq

/-- JS `s.startsWith(p)`, computed on the underlying character list. -/
def strStartsWith (s p : String) : Bool :=
  p.data.isPrefixOf s.data

/-- JS `s.substring(n)`, computed on the underlying character list. -/
def strDrop (s : String) (n : Nat) : String :=
  String.mk (s.data.drop n)

/-- `let userName = searchParams.get('user') || undefined;
if (!userName) { const authHeader = ...; if (authHeader &&
authHeader.startsWith('Bearer ')) userName = authHeader.substring(7); }` -/
def resolveUserName (user authHeader : Option String) : Option String :=
  let u0 : Option String :=
    match user with
    | none => none
    | some u => if u = "" then none else some u
  match u0 with
  | some u => some u
  | none =>
    match authHeader with
    | none => none
    | some h =>
      if h ≠ "" ∧ strStartsWith h "Bearer " then some (strDrop h 7) else none

/-- `searchParams.get('include_adult') === 'true'` -/
def includeAdultOf (req : SearchRequest) : Bool :=
  decide (req.include_adult = some "true")

/-- The `shouldFilterAdult` computation: defaults to `true`; when a (truthy)
user name is present, looks the settings up, absorbing a thrown error back to
`true`. -/
def shouldFilterAdultOf {Site R : Type} (env : Env Site R)
    (userName : Option String) : Bool :=
  match userName with
  | none => true
  | some u =>
    if u = "" then true
    else
      match env.getUserSettings u with
      | Except.ok s => fieldNotFalse s
      | Except.error _ => true

/-- `const finalShouldFilter = shouldFilterAdult || !includeAdult;` —
the boolean the handler passes to `getAvailableApiSites`. -/
def finalShouldFilter {Site R : Type} (env : Env Site R)
    (req : SearchRequest) : Bool :=
  shouldFilterAdultOf env (resolveUserName req.user req.authHeader)
    || !(includeAdultOf req)

/-- The three cache headers, all built from the single `getCacheTime` value. -/
def mkCacheHeaders (t : Nat) : List (String × String) :=
  [("Cache-Control", "public, max-age=" ++ toString t ++ ", s-maxage=" ++ toString t),
   ("CDN-Cache-Control", "public, s-maxage=" ++ toString t),
   ("Vercel-CDN-Cache-Control", "public, s-maxage=" ++ toString t)]

/-- The `{ regular_results: [], adult_results: [] }` 200 response with cache
headers, returned for an empty query or an empty provider list. -/
def emptyOkResponse (R : Type) (t : Nat) : ApiResponse R :=
  { status := 200, regular_results := [], adult_results := [],
    error := none, headers := mkCacheHeaders t }

/-- The catch-branch response:
`{ regular_results: [], adult_results: [], error: '搜索失败' }, { status: 500 }`. -/
def errorResponse (R : Type) : ApiResponse R :=
  { status := 500, regular_results := [], adult_results := [],
    error := some "搜索失败", headers := [] }

/-- `r.status === 'fulfilled'` on a settled promise. -/
def isFulfilled {α : Type} : Except Unit α → Bool
  | Except.ok _ => true
  | Except.error _ => false

/-- `(r as PromiseFulfilledResult<any[]>).value` (only applied to fulfilled
entries; an error yields `[]`). -/
def settledValue {R : Type} : Except Unit (List R) → List R
  | Except.ok v => v
  | Except.error _ => []

/-- The body of the `GET` handler, translated from
`src/app/api/search/route.ts`.  The userName / includeAdult /
shouldFilterAdult computation is bundled in `finalShouldFilter`, the value
the handler passes to `getAvailableApiSites`. -/
def handleGET {Site R : Type} (env : Env Site R) (req : SearchRequest) :
    ApiResponse R :=
  let cacheTime := env.cacheTime
  match req.q with
  | none => emptyOkResponse R cacheTime
  | some q =>
    if q = "" then emptyOkResponse R cacheTime
    else
      -- try block
      match env.getAvailableApiSites (finalShouldFilter env req) with
      | Except.error _ => errorResponse R
      | Except.ok none => emptyOkResponse R cacheTime
      | Except.ok (some sites) =>
        if sites.length = 0 then emptyOkResponse R cacheTime
        else
          let settled := sites.map (fun s => env.searchFromApi s q)
          let searchResults :=
            ((settled.filter isFulfilled).map settledValue).flatten
          { status := 200, regular_results := searchResults,
            adult_results := [], error := none,
            headers := mkCacheHeaders cacheTime }

/-- Concatenation of the fulfilled providers' result lists, in provider
order, skipping rejected providers (the spec-side description of the
fan-in). -/
def concatFulfilled {R : Type} : List (Except Unit (List R)) → List R
  | [] => []
  | Except.ok v :: rest => v ++ concatFulfilled rest
  | Except.error _ :: rest => concatFulfilled rest

/-- A concrete environment (provider ids and results are `Nat`) used by the
witnesses: `alice` has `filter_adult_content: false` stored, the lookup for
`bob` throws, anyone else has no stored settings; provider `2` rejects. -/
def demoEnv : Env Nat Nat :=
  { cacheTime := 300,
    getUserSettings := fun u =>
      if u = "alice" then Except.ok (some (SettingsField.fbool false))
      else if u = "bob" then Except.error ()
      else Except.ok none,
    getAvailableApiSites := fun _ => Except.ok (some [1, 2, 3]),
    searchFromApi := fun s _ =>
      if s = 2 then Except.error () else Except.ok [s, s + 10] }

def demoReqAlice : SearchRequest :=
  { q := some "movie", user := some "alice", authHeader := none,
    include_adult := some "true" }

def demoReqAnon : SearchRequest :=
  { q := some "movie", user := none, authHeader := some "Bearer ",
    include_adult := none }

def demoReqNoQ : SearchRequest :=
  { q := none, user := none, authHeader := none, include_adult := none }

/-- An environment whose user-settings lookup always throws while everything
else succeeds. -/
def c4Env : Env Nat Nat :=
  { cacheTime := 60,
    getUserSettings := fun _ => Except.error (),
    getAvailableApiSites := fun _ => Except.ok (some [5]),
    searchFromApi := fun _ _ => Except.ok [7] }

def c4Req : SearchRequest :=
  { q := some "movie", user := some "carl", authHeader := none,
    include_adult := none }

/-- An environment whose `getAvailableApiSites` always rejects. -/
def c4ErrEnv : Env Nat Nat :=
  { cacheTime := 60,
    getUserSettings := fun _ => Except.ok none,
    getAvailableApiSites := fun _ => Except.error (),
    searchFromApi := fun _ _ => Except.ok [] }

theorem filter_flatten_eq_concatFulfilled {R : Type}
    (l : List (Except Unit (List R))) :
    ((l.filter isFulfilled).map settledValue).flatten
      = concatFulfilled l := by
  induction l with
  | nil => rfl
  | cons hd tl ih =>
    cases hd with
    | ok v =>
      show v ++ ((tl.filter isFulfilled).map settledValue).flatten
        = v ++ concatFulfilled tl
      rw [ih]
    | error e =>
      show ((tl.filter isFulfilled).map settledValue).flatten
        = concatFulfilled tl
      exact ih

/-- Every execution of the handler takes one of three exits: the empty 200
response, the 500 error response, or a 200 search response with cache
headers, `adult_results = []` and no `error` field. -/
theorem handleGET_shape {Site R : Type} (env : Env Site R)
    (req : SearchRequest) :
    handleGET env req = emptyOkResponse R env.cacheTime ∨
    handleGET env req = errorResponse R ∨
    ∃ rs, handleGET env req =
      { status := 200, regular_results := rs, adult_results := [],
        error := none, headers := mkCacheHeaders env.cacheTime } := by
  simp only [handleGET]
  split
  · exact Or.inl rfl
  · split
    · exact Or.inl rfl
    · split
      · exact Or.inr (Or.inl rfl)
      · exact Or.inl rfl
      · split
        · exact Or.inl rfl
        · exact Or.inr (Or.inr ⟨_, rfl⟩)

/-- Running the handler on a non-empty query with a non-empty provider list
produces the 200 search response built from the settled provider calls. -/
theorem handleGET_search_eq {Site R : Type} (env : Env Site R)
    (req : SearchRequest) (q : String) (sites : List Site)
    (hq : req.q = some q) (hq0 : q ≠ "")
    (hs : env.getAvailableApiSites (finalShouldFilter env req)
            = Except.ok (some sites))
    (hne : sites ≠ []) :
    handleGET env req =
      { status := 200,
        regular_results :=
          (((sites.map (fun s => env.searchFromApi s q)).filter
              isFulfilled).map settledValue).flatten,
        adult_results := [], error := none,
        headers := mkCacheHeaders env.cacheTime } := by
  simp only [handleGET, hq, hq0, hs, if_neg, List.length_eq_zero]
  simp [hq0, hne]

theorem mem_concatFulfilled {R : Type} (l : List (Except Unit (List R)))
    (x : R) :
    x ∈ concatFulfilled l ↔ ∃ v, Except.ok v ∈ l ∧ x ∈ v := by
  induction l with
  | nil => simp [concatFulfilled]
  | cons hd tl ih =>
    cases hd with
    | ok v =>
      simp only [concatFulfilled, List.mem_append, ih, List.mem_cons]
      constructor
      · rintro (hx | ⟨w, hw, hxw⟩)
        · exact ⟨v, Or.inl rfl, hx⟩
        · exact ⟨w, Or.inr hw, hxw⟩
      · rintro ⟨w, hw | hw, hxw⟩
        · injection hw with h
          subst h
          exact Or.inl hxw
        · exact Or.inr ⟨w, hw, hxw⟩
    | error e =>
      simp only [concatFulfilled, ih, List.mem_cons]
      constructor
      · rintro ⟨w, hw, hxw⟩
        exact ⟨w, Or.inr hw, hxw⟩
      · rintro ⟨w, hw | hw, hxw⟩
        · exact absurd hw (by simp)
        · exact ⟨w, hw, hxw⟩

/-- Membership in the fan-in result: exactly the elements contributed by a
fulfilled provider call. -/
theorem mem_searchResults_iff {Site R : Type}
    (f : Site → Except Unit (List R)) (sites : List Site) (x : R) :
    x ∈ (((sites.map f).filter isFulfilled).map settledValue).flatten ↔
      ∃ s ∈ sites, ∃ v, f s = Except.ok v ∧ x ∈ v := by
  rw [filter_flatten_eq_concatFulfilled, mem_concatFulfilled]
  constructor
  · rintro ⟨v, hv, hx⟩
    rcases List.mem_map.mp hv with ⟨s, hs, hfs⟩
    exact ⟨s, hs, v, hfs, hx⟩
  · rintro ⟨s, hs, v, hfs, hx⟩
    exact ⟨v, List.mem_map.mpr ⟨s, hs, hfs⟩, hx⟩

/-- C1: for a GET request with a non-empty query whose resolved username's
settings lookup succeeds, the adult filter the handler passes to
`getAvailableApiSites` (`finalShouldFilter`) is `false` iff the stored
settings have `filter_adult_content` exactly `false` and the request has
`include_adult=true`; every other combination leaves it `true`. -/
theorem c1_filter_relaxed_iff {Site R : Type} (env : Env Site R)
    (req : SearchRequest) (q u : String) (s : Option SettingsField)
    (_hq : req.q = some q) (_hq0 : q ≠ "")
    (hu : resolveUserName req.user req.authHeader = some u) (hu0 : u ≠ "")
    (hs : env.getUserSettings u = Except.ok s) :
    finalShouldFilter env req = false ↔
      s = some (SettingsField.fbool false) ∧
        req.include_adult = some "true" := by
  have h1 : shouldFilterAdultOf env (resolveUserName req.user req.authHeader)
      = fieldNotFalse s := by
    rw [hu]
    unfold shouldFilterAdultOf
    simp [hu0, hs]
  unfold finalShouldFilter
  rw [h1]
  cases s with
  | none => simp [fieldNotFalse, includeAdultOf]
  | some f =>
    cases f with
    | fbool b =>
      cases b with
      | false => simp [fieldNotFalse, includeAdultOf]
      | true => simp [fieldNotFalse, includeAdultOf]
    | fabsent => simp [fieldNotFalse, includeAdultOf]
    | fother => simp [fieldNotFalse, includeAdultOf]

theorem c1_filter_relaxed_iff_witness :
    finalShouldFilter demoEnv demoReqAlice = false :=
  (c1_filter_relaxed_iff demoEnv demoReqAlice "movie" "alice"
      (some (SettingsField.fbool false)) rfl (by decide) rfl (by decide)
      rfl).mpr ⟨rfl, rfl⟩

/-- C3: with a resolved (truthy) username, if the settings lookup throws, or
returns null/undefined, or returns settings whose `filter_adult_content` is
missing, non-boolean, or `true`, then `shouldFilterAdult` is `true`. -/
theorem c3_settings_failure_defaults_on {Site R : Type} (env : Env Site R)
    (u : String) (hu : u ≠ "")
    (h : env.getUserSettings u = Except.error ()
      ∨ env.getUserSettings u = Except.ok none
      ∨ env.getUserSettings u = Except.ok (some SettingsField.fabsent)
      ∨ env.getUserSettings u = Except.ok (some SettingsField.fother)
      ∨ env.getUserSettings u = Except.ok (some (SettingsField.fbool true))) :
    shouldFilterAdultOf env (some u) = true := by
  unfold shouldFilterAdultOf
  rcases h with h | h | h | h | h <;> simp [hu, h, fieldNotFalse]

theorem c3_settings_failure_defaults_on_witness :
    shouldFilterAdultOf demoEnv (some "bob") = true :=
  c3_settings_failure_defaults_on demoEnv "bob" (by decide) (Or.inl rfl)

/-- C10: when no username is resolved (no truthy `user` parameter and no
Authorization header with a non-empty token after `Bearer `), the adult
filter passed to `getAvailableApiSites` is `true` for every value of
`include_adult`. -/
theorem c10_anonymous_filter_always_on {Site R : Type} (env : Env Site R)
    (req : SearchRequest)
    (hu : req.user = none ∨ req.user = some "")
    (ha : ∀ h, req.authHeader = some h → strStartsWith h "Bearer " = true →
            strDrop h 7 = "") :
    ∀ ia, finalShouldFilter env { req with include_adult := ia } = true := by
  intro ia
  have key : ∀ ah : Option String,
      (∀ h, ah = some h → strStartsWith h "Bearer " = true →
        strDrop h 7 = "") →
      resolveUserName none ah = none ∨ resolveUserName none ah = some "" := by
    intro ah hah
    cases ah with
    | none => exact Or.inl rfl
    | some h =>
      by_cases hb : (h ≠ "" ∧ strStartsWith h "Bearer ")
      · refine Or.inr ?_
        show (if h ≠ "" ∧ strStartsWith h "Bearer "
              then some (strDrop h 7) else none) = some ""
        rw [if_pos hb, hah h rfl hb.2]
      · refine Or.inl ?_
        show (if h ≠ "" ∧ strStartsWith h "Bearer "
              then some (strDrop h 7) else none) = none
        rw [if_neg hb]
  have hres : resolveUserName req.user req.authHeader = none ∨
      resolveUserName req.user req.authHeader = some "" := by
    rcases hu with hu | hu <;> rw [hu] <;> exact key req.authHeader ha
  unfold finalShouldFilter
  have hsame : resolveUserName ({ req with include_adult := ia }).user
      ({ req with include_adult := ia }).authHeader
      = resolveUserName req.user req.authHeader := rfl
  rw [hsame]
  rcases hres with h | h <;> rw [h] <;> simp [shouldFilterAdultOf]

theorem c10_anonymous_filter_always_on_witness :
    finalShouldFilter demoEnv
      { demoReqAnon with include_adult := some "true" } = true :=
  c10_anonymous_filter_always_on demoEnv demoReqAnon (Or.inl rfl)
    (fun h hh _ => by
      simp only [demoReqAnon] at hh
      injection hh with h1
      subst h1
      decide)
    (some "true")

/-- C2: with a non-empty query and a non-empty provider list, the response is
200, every fulfilled provider's results appear in `regular_results`, and
every element of `regular_results` comes from some fulfilled provider —
rejecting providers contribute nothing and do not fail the request. -/
theorem c2_provider_failures_isolated {Site R : Type} (env : Env Site R)
    (req : SearchRequest) (q : String) (sites : List Site)
    (hq : req.q = some q) (hq0 : q ≠ "")
    (hs : env.getAvailableApiSites (finalShouldFilter env req)
            = Except.ok (some sites))
    (hne : sites ≠ []) :
    (handleGET env req).status = 200 ∧
    (∀ site ∈ sites, ∀ v, env.searchFromApi site q = Except.ok v →
        ∀ x ∈ v, x ∈ (handleGET env req).regular_results) ∧
    (∀ x ∈ (handleGET env req).regular_results,
        ∃ site ∈ sites, ∃ v,
          env.searchFromApi site q = Except.ok v ∧ x ∈ v) := by
  rw [handleGET_search_eq env req q sites hq hq0 hs hne]
  refine ⟨rfl, ?_, ?_⟩
  · intro site hsi v hv x hx
    exact (mem_searchResults_iff _ sites x).mpr ⟨site, hsi, v, hv, hx⟩
  · intro x hx
    exact (mem_searchResults_iff _ sites x).mp hx

theorem c2_provider_failures_isolated_witness :
    (handleGET demoEnv demoReqAlice).status = 200 ∧
    (11 : Nat) ∈ (handleGET demoEnv demoReqAlice).regular_results := by
  have T := c2_provider_failures_isolated demoEnv demoReqAlice "movie"
    [1, 2, 3] rfl (by decide) rfl (by decide)
  exact ⟨T.1, T.2.1 1 (by decide) [1, 11] rfl 11 (by decide)⟩

/-- C9: `regular_results` equals the concatenation of the fulfilled
providers' result lists in the order the providers appear in the list from
`getAvailableApiSites`, rejected providers skipped. -/
theorem c9_results_in_provider_order {Site R : Type} (env : Env Site R)
    (req : SearchRequest) (q : String) (sites : List Site)
    (hq : req.q = some q) (hq0 : q ≠ "")
    (hs : env.getAvailableApiSites (finalShouldFilter env req)
            = Except.ok (some sites))
    (hne : sites ≠ []) :
    (handleGET env req).regular_results
      = concatFulfilled (sites.map (fun s => env.searchFromApi s q)) := by
  rw [handleGET_search_eq env req q sites hq hq0 hs hne]
  exact filter_flatten_eq_concatFulfilled _

theorem c9_results_in_provider_order_witness :
    (handleGET demoEnv demoReqAlice).regular_results = [1, 11, 3, 13] :=
  (c9_results_in_provider_order demoEnv demoReqAlice "movie" [1, 2, 3]
      rfl (by decide) rfl (by decide)).trans rfl

/-- C4 counterexample: the user-settings lookup — a step inside the
handler's try block that is not a per-provider search rejection — throws,
yet the response is 200, not 500: the inner try/catch absorbs the throw. -/
theorem c4_counterexample :
    c4Env.getUserSettings "carl" = Except.error () ∧
    resolveUserName c4Req.user c4Req.authHeader = some "carl" ∧
    (handleGET c4Env c4Req).status = 200 :=
  ⟨rfl, rfl, rfl⟩

/-- C4 (amended): if a step inside the try block throws and the throw is not
absorbed by an inner handler (per-provider rejections are absorbed by
`Promise.allSettled`, settings-lookup throws by the inner try/catch) — that
is, when `getAvailableApiSites` rejects — the response has status 500 with
empty `regular_results`, empty `adult_results`, and a non-empty error. -/
theorem c4_unabsorbed_throw_500 {Site R : Type} (env : Env Site R)
    (req : SearchRequest) (q : String)
    (hq : req.q = some q) (hq0 : q ≠ "")
    (he : env.getAvailableApiSites (finalShouldFilter env req)
            = Except.error ()) :
    (handleGET env req).status = 500 ∧
    (handleGET env req).regular_results = [] ∧
    (handleGET env req).adult_results = [] ∧
    ∃ msg, (handleGET env req).error = some msg ∧ msg ≠ "" := by
  have herr : handleGET env req = errorResponse R := by
    simp [handleGET, hq, hq0, he]
  rw [herr]
  exact ⟨rfl, rfl, rfl, "搜索失败", rfl, by decide⟩

theorem c4_unabsorbed_throw_500_witness :
    (handleGET c4ErrEnv demoReqAnon).status = 500 :=
  (c4_unabsorbed_throw_500 c4ErrEnv demoReqAnon "movie" rfl (by decide)
      rfl).1

/-- C5: an empty or missing query, or a null/empty provider list, yields the
empty 200 response with the cache headers set; in the empty-query case the
response is the same for every `searchFromApi`, so no provider is queried. -/
theorem c5_empty_query_or_no_providers {Site R : Type} (env : Env Site R)
    (req : SearchRequest) :
    ((req.q = none ∨ req.q = some "") →
      ∀ f, handleGET { env with searchFromApi := f } req
             = emptyOkResponse R env.cacheTime) ∧
    (∀ q, req.q = some q → q ≠ "" →
      (env.getAvailableApiSites (finalShouldFilter env req) = Except.ok none ∨
       env.getAvailableApiSites (finalShouldFilter env req)
         = Except.ok (some ([] : List Site))) →
      handleGET env req = emptyOkResponse R env.cacheTime) := by
  constructor
  · rintro (h | h) f <;> simp [handleGET, h]
  · rintro q hq hq0 (h | h) <;> simp [handleGET, hq, hq0, h]

theorem c5_empty_query_or_no_providers_witness :
    handleGET { demoEnv with searchFromApi := fun _ _ => Except.ok [99] }
        demoReqNoQ = emptyOkResponse Nat 300 :=
  (c5_empty_query_or_no_providers demoEnv demoReqNoQ).1 (Or.inl rfl)
    (fun _ _ => Except.ok [99])

/-- C6: the username used for the settings lookup is the non-empty `user`
query parameter when present; otherwise the Authorization header is
consulted, and exactly when it starts with `Bearer ` the username is the
remainder after that prefix. -/
theorem c6_username_resolution (user auth : Option String) :
    (∀ u, user = some u → u ≠ "" → resolveUserName user auth = some u) ∧
    ((user = none ∨ user = some "") →
      resolveUserName user auth =
        match auth with
        | some h => if strStartsWith h "Bearer "
                    then some (strDrop h 7) else none
        | none => none) := by
  constructor
  · intro u hu hu0
    rw [hu]
    unfold resolveUserName
    simp [hu0]
  · intro hu
    have hnone : resolveUserName user auth = resolveUserName none auth := by
      rcases hu with h | h <;> rw [h]
      rfl
    rw [hnone]
    cases auth with
    | none => rfl
    | some h =>
      by_cases hb : strStartsWith h "Bearer "
      · by_cases h0 : h = ""
        · subst h0
          exact absurd hb (by decide)
        · show (if h ≠ "" ∧ strStartsWith h "Bearer "
                then some (strDrop h 7) else none)
             = (if strStartsWith h "Bearer "
                then some (strDrop h 7) else none)
          rw [if_pos ⟨h0, hb⟩, if_pos hb]
      · show (if h ≠ "" ∧ strStartsWith h "Bearer "
              then some (strDrop h 7) else none)
           = (if strStartsWith h "Bearer "
              then some (strDrop h 7) else none)
        rw [if_neg (fun hc => hb hc.2), if_neg hb]

theorem c6_username_resolution_witness :
    resolveUserName (some "alice") (some "Bearer bob") = some "alice" ∧
    resolveUserName none (some "Bearer bob") = some "bob" := by
  refine ⟨(c6_username_resolution (some "alice") (some "Bearer bob")).1
    "alice" rfl (by decide), ?_⟩
  have h := (c6_username_resolution none (some "Bearer bob")).2 (Or.inl rfl)
  rw [h]
  decide

/-- C7: every 200 response carries exactly the three cache headers
`Cache-Control`, `CDN-Cache-Control`, `Vercel-CDN-Cache-Control`, all built
from the single `getCacheTime` value. -/
theorem c7_cache_headers {Site R : Type} (env : Env Site R)
    (req : SearchRequest) (h200 : (handleGET env req).status = 200) :
    (handleGET env req).headers = mkCacheHeaders env.cacheTime ∧
    ((handleGET env req).headers.map Prod.fst)
      = ["Cache-Control", "CDN-Cache-Control",
         "Vercel-CDN-Cache-Control"] := by
  rcases handleGET_shape env req with h | h | ⟨rs, h⟩
  · rw [h]
    exact ⟨rfl, rfl⟩
  · rw [h] at h200
    simp [errorResponse] at h200
  · rw [h]
    exact ⟨rfl, rfl⟩

theorem c7_cache_headers_witness :
    (handleGET demoEnv demoReqNoQ).headers = mkCacheHeaders 300 :=
  (c7_cache_headers demoEnv demoReqNoQ rfl).1

/-- C8: for every request, environment and outcome, the `adult_results`
field of the response body is the empty array. -/
theorem c8_adult_results_empty {Site R : Type} (env : Env Site R)
    (req : SearchRequest) :
    (handleGET env req).adult_results = [] := by
  rcases handleGET_shape env req with h | h | ⟨rs, h⟩ <;> rw [h] <;> rfl

end KatelyaTV
